import Mathlib

/-!
Verification of the noise-synthesis and texture-compositing core of the
brewing-data repository.

The two relevant Python modules are shallowly embedded:

* `TextureCore` models `src/tools/texture_core.py` over exact rationals
  (`ℚ`) and integers; all definitions are computable.
* `NoiseMap` models `src/tools/noise_map_generator.py` over the reals
  (`ℝ`), because Worley noise divides by `math.sqrt(2.0)`.

External collaborators (numpy's seeded generator `default_rng(seed)` and the
seed-shuffled permutation table) are modelled as explicit function parameters
`rand : Nat → Nat → ℚ/ℝ` (draw `i` of the stream seeded with `s`),
`randBase : Nat → Nat` (the single `rng.integers(0, 9_999_999)` draw) and
`pTab : Nat → Nat → Nat` (the shuffled permutation of `range(256)`).  They are
deterministic functions of the seed, which is the numpy contract the spec
relies on.  Python floats are modelled as exact rationals/reals; `astype(int)`
and `int(...)` truncate toward zero, which is modelled by `pyTrunc`.
-/

/-- Python/numpy truncation toward zero: `int(q)` and `ndarray.astype(int)`. -/
def pyTrunc (q : ℚ) : ℤ := if 0 ≤ q then ⌊q⌋ else ⌈q⌉

/-- Python `str.lower()` (ASCII lowercasing of the keys this code uses). -/
def pyLower (s : String) : String := ⟨s.data.map Char.toLower⟩

/-- Resolution of an optional seed argument: `None` makes the library draw a
fresh seed from ambient entropy (OS entropy for `np.random.default_rng(None)`,
the module-level generator for `random.randint`); a supplied seed is used as
is.  The ambient entropy of the call is the explicit `entropy` argument. -/
def resolveSeed (entropy : Nat) : Option Nat → Nat
  | some s => s
  | none => entropy

namespace TextureCore

/-- RGB colour triple; contents are uint8 values 0..255 kept as integers. -/
abbrev Color := ℤ × ℤ × ℤ

/-- An RGB raster image: height, width and the pixel grid (row, column). -/
structure Image where
  height : Nat
  width : Nat
  pix : Nat → Nat → Color

/-- texture_core.clamp01: `np.clip(x, 0.0, 1.0)`. -/
def clamp01 (x : ℚ) : ℚ := min (max x 0) 1

/-- texture_core.to_uint8 applied to one scalar:
`(clamp01(img) * 255).astype(np.uint8)`. -/
def to_uint8 (v : ℚ) : ℤ := pyTrunc (clamp01 v * 255)

/-- texture_core.lerp. -/
def lerp (a b t : ℚ) : ℚ := a + (b - a) * t

/-- texture_core.lerp_color: `tuple(int(lerp(c1[i], c2[i], t)) for i in range(3))`. -/
def lerp_color (c1 c2 : Color) (t : ℚ) : Color :=
  (pyTrunc (lerp (c1.1 : ℚ) (c2.1 : ℚ) t),
   pyTrunc (lerp (c1.2.1 : ℚ) (c2.2.1 : ℚ) t),
   pyTrunc (lerp (c1.2.2 : ℚ) (c2.2.2 : ℚ) t))

/-- texture_core.noise2d: `default_rng(seed).random((height, width))`, drawn
row-major, so pixel `(y, x)` is draw number `y * width + x` of the stream. -/
def noise2d (rand : Nat → Nat → ℚ) (width : Nat) (seed : Nat) : Nat → Nat → ℚ :=
  fun y x => rand seed (y * width + x)

/-- Accumulated fBm total of texture_core.fractal_noise after `k` octaves:
octave `i` adds `noise2d(..., seed=base_seed + i * 1337) * persistence ** i`. -/
def fbmTotal (rand : Nat → Nat → ℚ) (width base : Nat) (persistence : ℚ) :
    Nat → Nat → Nat → ℚ
  | 0 => fun _ _ => 0
  | k + 1 => fun y x =>
      fbmTotal rand width base persistence k y x +
        noise2d rand width (base + k * 1337) y x * persistence ^ k

/-- Accumulated `max_amplitude` of texture_core.fractal_noise after `k`
octaves: the sum of `persistence ** i` for `i < k`. -/
def maxAmplitude (persistence : ℚ) : Nat → ℚ
  | 0 => 0
  | k + 1 => maxAmplitude persistence k + persistence ^ k

/-- texture_core.fractal_noise (lines 51-84):
`clamp01(total / max_amplitude) if max_amplitude > 0 else total`.
`randBase` models the one `rng.integers(0, 9_999_999)` draw. -/
def fractal_noise (rand : Nat → Nat → ℚ) (randBase : Nat → Nat)
    (width _height : Nat) (octaves : Nat) (persistence : ℚ)
    (entropy : Nat) (seed : Option Nat) : Nat → Nat → ℚ :=
  let base := randBase (resolveSeed entropy seed)
  if maxAmplitude persistence octaves > 0 then
    fun y x =>
      clamp01 (fbmTotal rand width base persistence octaves y x /
        maxAmplitude persistence octaves)
  else fbmTotal rand width base persistence octaves

/-- texture_core.PALETTES. -/
def PALETTES : String → Option (List Color) := fun key =>
  if key = "glass" then some [(230, 240, 255), (190, 210, 230), (150, 170, 190)]
  else if key = "liquid_amber" then some [(60, 30, 10), (120, 70, 20), (180, 120, 60)]
  else if key = "liquid_red" then some [(40, 10, 20), (90, 20, 40), (150, 40, 80)]
  else if key = "metal" then some [(60, 60, 60), (110, 110, 110), (160, 160, 160)]
  else if key = "seed" then some [(40, 30, 10), (80, 60, 20), (120, 90, 40)]
  else if key = "crop_green" then some [(20, 60, 20), (40, 100, 40), (80, 150, 80)]
  else if key = "berry" then some [(60, 10, 20), (120, 20, 40), (180, 40, 60)]
  else if key = "herb" then some [(30, 70, 30), (60, 120, 60), (110, 180, 110)]
  else if key = "mushroom" then some [(80, 60, 40), (120, 90, 60), (160, 130, 90)]
  else none

/- Silhouette generators.  The float literals of the source (0.2, 0.12, ...)
are modelled as the exact rationals they denote. -/

/-- texture_core.sil_bottle.  `cx = size // 2`; row radius by thirds. -/
def sil_bottle (size : Nat) : Nat → Nat → Bool := fun yi x =>
  let r : ℚ :=
    if (yi : ℚ) < (size : ℚ) * (1 / 5) then (size : ℚ) * (3 / 25)
    else if (yi : ℚ) < (size : ℚ) * (3 / 5) then (size : ℚ) * (1 / 4)
    else (size : ℚ) * (7 / 20)
  decide (|(x : ℚ) - ((size / 2 : Nat) : ℚ)| ≤ r)

/-- texture_core.sil_flask. -/
def sil_flask (size : Nat) : Nat → Nat → Bool := fun yi x =>
  let r : ℚ :=
    if (yi : ℚ) < (size : ℚ) * (3 / 10) then (size : ℚ) * (3 / 20)
    else (size : ℚ) * (2 / 5)
  decide (|(x : ℚ) - ((size / 2 : Nat) : ℚ)| ≤ r)

/-- texture_core.sil_can: rows `int(size*0.1) ≤ yi < int(size*0.9)`,
columns `int(size*0.25) ≤ x < int(size*0.75)` (half-open numpy slices). -/
def sil_can (size : Nat) : Nat → Nat → Bool := fun yi x =>
  decide (pyTrunc ((size : ℚ) * (1 / 10)) ≤ (yi : ℤ) ∧
    (yi : ℤ) < pyTrunc ((size : ℚ) * (9 / 10)) ∧
    pyTrunc ((size : ℚ) * (1 / 4)) ≤ (x : ℤ) ∧
    (x : ℤ) < pyTrunc ((size : ℚ) * (3 / 4)))

/-- texture_core.sil_seed: ellipse test `dx*dx + dy*dy < 1`. -/
def sil_seed (size : Nat) : Nat → Nat → Bool := fun yi x =>
  let cx : ℚ := ((size / 2 : Nat) : ℚ)
  let dx : ℚ := ((x : ℚ) - cx) / ((size : ℚ) * (1 / 4))
  let dy : ℚ := ((yi : ℚ) - cx) / ((size : ℚ) * (7 / 20))
  decide (dx * dx + dy * dy < 1)

/-- texture_core.sil_crop: `(x % 4 == 0) & (y > size * 0.2)`. -/
def sil_crop (size : Nat) : Nat → Nat → Bool := fun yi x =>
  decide (x % 4 = 0 ∧ (yi : ℚ) > (size : ℚ) * (1 / 5))

/-- texture_core.sil_berry: circle of radius `size * 0.3`. -/
def sil_berry (size : Nat) : Nat → Nat → Bool := fun yi x =>
  let cx : ℚ := ((size / 2 : Nat) : ℚ)
  let dx : ℚ := ((x : ℚ) - cx) / ((size : ℚ) * (3 / 10))
  let dy : ℚ := ((yi : ℚ) - cx) / ((size : ℚ) * (3 / 10))
  decide (dx * dx + dy * dy < 1)

/-- texture_core.sil_herb: `(x + y) % 7 == 0`. -/
def sil_herb (_size : Nat) : Nat → Nat → Bool := fun yi x =>
  decide ((x + yi) % 7 = 0)

/-- texture_core.sil_mushroom. -/
def sil_mushroom (size : Nat) : Nat → Nat → Bool := fun yi x =>
  let r : ℚ :=
    if (yi : ℚ) < (size : ℚ) * (1 / 2) then (size : ℚ) * (2 / 5)
    else (size : ℚ) * (1 / 5)
  decide (|(x : ℚ) - ((size / 2 : Nat) : ℚ)| ≤ r)

/-- texture_core.SILHOUETTES (string-keyed dispatch table). -/
def SILHOUETTES : String → Option (Nat → Nat → Nat → Bool) := fun key =>
  if key = "bottle" then some sil_bottle
  else if key = "flask" then some sil_flask
  else if key = "can" then some sil_can
  else if key = "seed" then some sil_seed
  else if key = "crop" then some sil_crop
  else if key = "berry" then some sil_berry
  else if key = "herb" then some sil_herb
  else if key = "mushroom" then some sil_mushroom
  else none

/-- Python list indexing `l[i]`: nonnegative indices from the front, negative
indices wrap from the end; an out-of-range access (IndexError in Python,
unreachable for the inputs the claims use) is modelled by `(0, 0, 0)`. -/
def pyGet (l : List Color) (i : ℤ) : Color :=
  if 0 ≤ i then l.getD i.toNat (0, 0, 0)
  else l.getD (l.length - (-i).toNat) (0, 0, 0)

/-- The palette index of texture_core.apply_palette:
`idx = (v * (n - 1 - 1e-6)).astype(int)` with `n = len(palette)`. -/
def paletteIdx (palette : List Color) (v : ℚ) : ℤ :=
  pyTrunc (v * ((palette.length : ℚ) - 1 - 1 / 1000000))

/-- Per-value core of texture_core.apply_palette (lines 240-249): the code
applies exactly this computation to every pixel value.
`frac = v * (n - 1) - idx`, then
`lerp_color(palette[idx], palette[min(idx + 1, n - 1)], frac)`. -/
def applyPaletteValue (palette : List Color) (v : ℚ) : Color :=
  lerp_color (pyGet palette (paletteIdx palette v))
    (pyGet palette (min (paletteIdx palette v + 1) ((palette.length : ℤ) - 1)))
    (v * ((palette.length : ℚ) - 1) - ((paletteIdx palette v : ℤ) : ℚ))

/-- texture_core.apply_palette. -/
def apply_palette (noise : Nat → Nat → ℚ) (palette : List Color) :
    Nat → Nat → Color :=
  fun y x => applyPaletteValue palette (noise y x)

/-- Entry `i` of `np.linspace(0, 1, h)` (endpoint included; a single sample
is `0.0`, an empty row set never gets sampled). -/
def linspace01 (h i : Nat) : ℚ := if h ≤ 1 then 0 else (i : ℚ) / ((h : ℚ) - 1)

/-- texture_core.vertical_shading: `shade = 1 - y * strength` per row,
each channel multiplied by the row shade and pushed through to_uint8. -/
def vertical_shading (height : Nat) (img : Nat → Nat → Color) (strength : ℚ) :
    Nat → Nat → Color :=
  fun y x =>
    let shade : ℚ := 1 - linspace01 height y * strength
    (to_uint8 (((img y x).1 : ℚ) * shade),
     to_uint8 (((img y x).2.1 : ℚ) * shade),
     to_uint8 (((img y x).2.2 : ℚ) * shade))

/-- `np.roll(np.roll(mask, dy, axis=0), dx, axis=1)` read at `(i, j)`:
the rolled array reads the original at `((i - dy) mod H, (j - dx) mod W)`. -/
def rolled (H W : Nat) (mask : Nat → Nat → Bool) (dy dx : ℤ) :
    Nat → Nat → Bool :=
  fun i j => mask (((i : ℤ) - dy) % (H : ℤ)).toNat (((j : ℤ) - dx) % (W : ℤ)).toNat

/-- Edge detection of texture_core.outline (lines 290-293): starting from the
mask, each of the four shifted copies is conjoined negated, so a pixel
survives only if it is in the mask and all four rolled neighbours are not. -/
def edges (H W : Nat) (mask : Nat → Nat → Bool) : Nat → Nat → Bool :=
  fun i j =>
    ([((1 : ℤ), (0 : ℤ)), (-1, 0), (0, 1), (0, -1)]).foldl
      (fun acc d => acc && !(rolled H W mask d.1 d.2 i j)) (mask i j)

/-- texture_core.outline: recolour edge pixels to the fixed dark colour. -/
def outline (H W : Nat) (img : Nat → Nat → Color) (mask : Nat → Nat → Bool) :
    Nat → Nat → Color :=
  fun i j => if edges H W mask i j = true then (20, 20, 20) else img i j

/-- Error taxonomy of texture_core.generate_frame (both are ValueError). -/
inductive TexError
  | unknownItemType
  | unknownPalette
  deriving DecidableEq

/-- texture_core.generate_frame's default palette table:
`default_palette.get(item_type, "seed")`. -/
def default_palette (item : String) : String :=
  if item = "bottle" then "glass"
  else if item = "flask" then "glass"
  else if item = "can" then "metal"
  else if item = "seed" then "seed"
  else if item = "crop" then "crop_green"
  else if item = "berry" then "berry"
  else if item = "herb" then "herb"
  else if item = "mushroom" then "mushroom"
  else "seed"

/-- The pure pixel pipeline of texture_core.generate_frame once the item and
palette lookups have succeeded: fractal noise (3 octaves, persistence 0.5),
palette mapping, vertical shading with strength 0.25, outline, then the
background masked to black. -/
def framePix (rand : Nat → Nat → ℚ) (randBase : Nat → Nat) (size : Nat)
    (maskf : Nat → Nat → Nat → Bool) (palette : List Color)
    (entropy : Nat) (seed : Option Nat) : Nat → Nat → Color :=
  let mask := maskf size
  let noise := fractal_noise rand randBase size size 3 (1 / 2) entropy seed
  let img1 := apply_palette noise palette
  let img2 := vertical_shading size img1 (1 / 4)
  let img3 := outline size size img2 mask
  fun y x => if mask y x = true then img3 y x else (0, 0, 0)

/-- texture_core.generate_frame. -/
def generate_frame (rand : Nat → Nat → ℚ) (randBase : Nat → Nat) (entropy : Nat)
    (size : Nat) (item : String) (palette_key : Option String)
    (seed : Option Nat) : Except TexError Image :=
  match SILHOUETTES item with
  | none => .error .unknownItemType
  | some maskf =>
    match PALETTES (palette_key.getD (default_palette item)) with
    | none => .error .unknownPalette
    | some palette =>
      .ok ⟨size, size, framePix rand randBase size maskf palette entropy seed⟩

/-- Per-frame seed derivation of texture_core.generate_texture:
`(seed + i) if seed is not None else None`. -/
def seedPlus : Option Nat → Nat → Option Nat
  | some s, i => some (s + i)
  | none, _ => none

/-- texture_core.generate_texture: `frames = max(1, frames)`; one frame is
returned as is, otherwise the frames are stacked into a vertical strip of
height `size * frames` (sheet row `y` is row `y % size` of frame `y / size`,
matching `sheet[i*size:(i+1)*size] = frame_i`).  The per-frame checks are
seed-independent, so the loop's first-iteration error equals the checks'
error. -/
def generate_texture (rand : Nat → Nat → ℚ) (randBase : Nat → Nat) (entropy : Nat)
    (size : Nat) (item : String) (frames : ℤ) (palette_key : Option String)
    (seed : Option Nat) : Except TexError Image :=
  let f : ℤ := max 1 frames
  if f = 1 then generate_frame rand randBase entropy size item palette_key seed
  else
    match SILHOUETTES item with
    | none => .error .unknownItemType
    | some maskf =>
      match PALETTES (palette_key.getD (default_palette item)) with
      | none => .error .unknownPalette
      | some palette =>
        .ok ⟨size * f.toNat, size,
          fun y x =>
            framePix rand randBase size maskf palette entropy
              (seedPlus seed (y / size)) (y % size) x⟩

end TextureCore

namespace NoiseMap

noncomputable section

/-- Error taxonomy of noise_map_generator: every constructor is a Python
exception raised synchronously before any field is returned.
`scaleNonPositive` is the explicit `ValueError("scale must be > 0")`;
`unknownMetric` and `unknownNoiseType` are the explicit ValueErrors of
generate_worley_noise and generate_noise; `negativeDimensions` is numpy's
ValueError for `rng.random((num_points, 2))` with a negative count;
`zeroSizeReduction` is numpy's identity-less `dist.min(axis=-1)` ValueError
on an empty point axis; `zeroDivision` is Python's ZeroDivisionError for
`base_scale / frequency` when the frequency reaches `0.0`. -/
inductive NoiseError
  | scaleNonPositive
  | unknownMetric
  | negativeDimensions
  | zeroSizeReduction
  | zeroDivision
  | unknownNoiseType
  deriving DecidableEq

/-- noise_map_generator.clamp01: `np.clip(x, 0.0, 1.0)`. -/
def clamp01 (x : ℝ) : ℝ := min (max x 0) 1

/-- noise_map_generator.generate_white_noise: `default_rng(seed).random((h, w))`,
drawn row-major. -/
def generate_white_noise (rand : Nat → Nat → ℝ) (width _height : Nat)
    (seed : Nat) : Nat → Nat → ℝ :=
  fun y x => rand seed (y * width + x)

/-- noise_map_generator._fade: `t * t * t * (t * (t * 6 - 15) + 10)`. -/
def fade (t : ℝ) : ℝ := t * t * t * (t * (t * 6 - 15) + 10)

/-- noise_map_generator._lerp: `a + t * (b - a)`. -/
def lerp (a b t : ℝ) : ℝ := a + t * (b - a)

/-- `_GRADIENTS_2D[n % len(_GRADIENTS_2D)]`. -/
def gradAt (n : Nat) : ℝ × ℝ :=
  match n % 8 with
  | 0 => (1, 0)
  | 1 => (-1, 0)
  | 2 => (0, 1)
  | 3 => (0, -1)
  | 4 => (1, 1)
  | 5 => (-1, 1)
  | 6 => (1, -1)
  | _ => (-1, -1)

/-- Lookup in `self.perm = np.concatenate([p, p])` where `p` is the
seed-shuffled permutation of `range(256)` modelled by `pTab`: every index
the code produces is below 512, and `perm[i] = p[i % 256]`. -/
def permAt (pTab : Nat → Nat → Nat) (seed i : Nat) : Nat := pTab seed (i % 256)

/-- Corner hash `aa = perm[perm[xi0] + yi0]` of Perlin2D.noise; the lattice
coordinates are wrapped with `& 255`, which on Python ints is `% 256`
(Euclidean remainder, also for negatives). -/
def hashAA (pTab : Nat → Nat → Nat) (seed : Nat) (x0 y0 : ℤ) : Nat :=
  permAt pTab seed (permAt pTab seed (x0 % 256).toNat + (y0 % 256).toNat)

/-- Corner hash `ab = perm[perm[xi0] + yi1]`. -/
def hashAB (pTab : Nat → Nat → Nat) (seed : Nat) (x0 y0 : ℤ) : Nat :=
  permAt pTab seed (permAt pTab seed (x0 % 256).toNat + ((y0 + 1) % 256).toNat)

/-- Corner hash `ba = perm[perm[xi1] + yi0]`. -/
def hashBA (pTab : Nat → Nat → Nat) (seed : Nat) (x0 y0 : ℤ) : Nat :=
  permAt pTab seed (permAt pTab seed ((x0 + 1) % 256).toNat + (y0 % 256).toNat)

/-- Corner hash `bb = perm[perm[xi1] + yi1]`. -/
def hashBB (pTab : Nat → Nat → Nat) (seed : Nat) (x0 y0 : ℤ) : Nat :=
  permAt pTab seed (permAt pTab seed ((x0 + 1) % 256).toNat + ((y0 + 1) % 256).toNat)

/-- The interpolation core of Perlin2D.noise (lines 130-144): the four corner
gradient dot products with the in-cell offsets, blended bilinearly with the
fade weights `u = fade(xf)`, `v = fade(yf)`. -/
def perlinDots (gaa gba gab gbb : ℝ × ℝ) (xf yf : ℝ) : ℝ :=
  lerp (lerp (gaa.1 * xf + gaa.2 * yf) (gba.1 * (xf - 1) + gba.2 * yf) (fade xf))
       (lerp (gab.1 * xf + gab.2 * (yf - 1)) (gbb.1 * (xf - 1) + gbb.2 * (yf - 1)) (fade xf))
       (fade yf)

/-- Pixel `(i, j)` of Perlin2D.noise: sample position `x = j / scale`,
`y = i / scale` (`np.linspace(0, n/scale, n, endpoint=False)` has step
`1/scale`), cell offsets `xf = x - floor(x)`, `yf = y - floor(y)`, and the
final affine remap `value * 0.5 + 0.5` (the source applies no clamp here). -/
def perlinField (pTab : Nat → Nat → Nat) (seed : Nat) (scale : ℝ) :
    Nat → Nat → ℝ := fun i j =>
  perlinDots
    (gradAt (hashAA pTab seed ⌊(j : ℝ) / scale⌋ ⌊(i : ℝ) / scale⌋))
    (gradAt (hashBA pTab seed ⌊(j : ℝ) / scale⌋ ⌊(i : ℝ) / scale⌋))
    (gradAt (hashAB pTab seed ⌊(j : ℝ) / scale⌋ ⌊(i : ℝ) / scale⌋))
    (gradAt (hashBB pTab seed ⌊(j : ℝ) / scale⌋ ⌊(i : ℝ) / scale⌋))
    ((j : ℝ) / scale - ⌊(j : ℝ) / scale⌋) ((i : ℝ) / scale - ⌊(i : ℝ) / scale⌋)
    * (1 / 2) + 1 / 2

/-- Perlin2D.noise: `raise ValueError("scale must be > 0")` for
non-positive scale, otherwise the field above. -/
def perlin_noise (pTab : Nat → Nat → Nat) (seed : Nat) (_width _height : Nat)
    (scale : ℝ) : Except NoiseError (Nat → Nat → ℝ) :=
  if scale ≤ 0 then .error .scaleNonPositive
  else .ok (perlinField pTab seed scale)

/-- The octave loop of generate_fractal_noise_perlin after `k` iterations:
running total and running `max_amplitude`.  Iteration `k` uses
`frequency = lacunarity ** k`, `amplitude = persistence ** k` and
`scale = base_scale / frequency`; a zero frequency raises ZeroDivisionError
and a non-positive scale raises Perlin2D.noise's ValueError, both cutting the
loop short with no field returned. -/
def fbmAcc (pTab : Nat → Nat → Nat) (seed : Nat)
    (persistence lacunarity base_scale : ℝ) :
    Nat → Except NoiseError ((Nat → Nat → ℝ) × ℝ)
  | 0 => .ok (fun _ _ => 0, 0)
  | k + 1 =>
    match fbmAcc pTab seed persistence lacunarity base_scale k with
    | .error e => .error e
    | .ok (total, maxA) =>
      if lacunarity ^ k = 0 then .error .zeroDivision
      else if base_scale / lacunarity ^ k ≤ 0 then .error .scaleNonPositive
      else
        .ok (fun y x =>
          total y x +
            perlinField pTab seed (base_scale / lacunarity ^ k) y x *
              persistence ^ k,
          maxA + persistence ^ k)

/-- noise_map_generator.generate_fractal_noise_perlin:
`clamp01(total / max_amplitude if max_amplitude > 0 else total)`.
A negative octave count makes `range(octaves)` empty, hence `.toNat`. -/
def generate_fractal_noise_perlin (pTab : Nat → Nat → Nat)
    (_width _height : Nat) (octaves : ℤ)
    (persistence lacunarity base_scale : ℝ) (seed : Nat) :
    Except NoiseError (Nat → Nat → ℝ) :=
  match fbmAcc pTab seed persistence lacunarity base_scale octaves.toNat with
  | .error e => .error e
  | .ok (total, maxA) =>
    .ok fun y x => clamp01 (if maxA > 0 then total y x / maxA else total y x)

/-- The feature points of generate_worley_noise:
`rng.random((num_points, 2))`, row-major, so point `k` is
`(draw 2k, draw 2k+1)`. -/
def worleyPoints (rand : Nat → Nat → ℝ) (seed n : Nat) : List (ℝ × ℝ) :=
  (List.range n).map fun k => (rand seed (2 * k), rand seed (2 * k + 1))

/-- Distance under the selected Worley metric. -/
def distOf (metric : String) (dx dy : ℝ) : ℝ :=
  if metric = "manhattan" then |dx| + |dy| else Real.sqrt (dx ^ 2 + dy ^ 2)

/-- Minimum of a list of reals (`dist.min(axis=-1)`); the empty case never
feeds a field because the code raises first. -/
def listMin : List ℝ → ℝ
  | [] => 0
  | d :: ds => ds.foldl min d

/-- Distance from pixel `(i, j)` to its nearest feature point: the sample
grid is `np.linspace(0, 1, n, endpoint=False)`, so the pixel sits at
`(j / width, i / height)` in the unit square. -/
def nearestDist (metric : String) (width height : Nat) (points : List (ℝ × ℝ))
    (i j : Nat) : ℝ :=
  listMin (points.map fun p =>
    distOf metric ((j : ℝ) / (width : ℝ) - p.1) ((i : ℝ) / (height : ℝ) - p.2))

/-- noise_map_generator.generate_worley_noise: metric check first, then the
numpy failure points for `num_points < 0` (negative dimensions) and
`num_points == 0` (zero-size `min` reduction); otherwise every nearest
distance is divided by `math.sqrt(2.0)` — for both metrics — and clamped. -/
def generate_worley_noise (rand : Nat → Nat → ℝ) (width height : Nat)
    (num_points : ℤ) (seed : Nat) (metric : String) :
    Except NoiseError (Nat → Nat → ℝ) :=
  if metric ≠ "euclidean" ∧ metric ≠ "manhattan" then .error .unknownMetric
  else if num_points < 0 then .error .negativeDimensions
  else if num_points = 0 then .error .zeroSizeReduction
  else
    .ok fun i j =>
      clamp01 (nearestDist metric width height
        (worleyPoints rand seed num_points.toNat) i j / Real.sqrt 2)

/-- Modelled from the spec: section 4.4 prescribes normalization "by the
maximum possible distance in the unit square for that metric (√2 for
Euclidean, 2 for Manhattan)".  The implementation in
src/tools/noise_map_generator.py does not contain this per-metric divisor
(it always divides by √2); this definition renders the spec's words for
comparison with the code's `generate_worley_noise`. -/
def specMetricDivisor (metric : String) : ℝ :=
  if metric = "manhattan" then 2 else Real.sqrt 2

/-- Modelled from the spec: the Worley field as claim C3 describes it, the
nearest distance normalized by the per-metric maximum `specMetricDivisor`. -/
def specWorleyField (rand : Nat → Nat → ℝ) (width height : Nat)
    (num_points : ℤ) (seed : Nat) (metric : String) : Nat → Nat → ℝ :=
  fun i j =>
    clamp01 (nearestDist metric width height
      (worleyPoints rand seed num_points.toNat) i j / specMetricDivisor metric)

/-- noise_map_generator.NoiseConfig. -/
structure NoiseConfig where
  width : Nat
  height : Nat
  noise_type : String
  seed : Option Nat
  scale : ℝ
  octaves : ℤ
  persistence : ℝ
  lacunarity : ℝ
  num_points : ℤ
  worley_metric : String

/-- noise_map_generator.generate_noise: dispatch on
`config.noise_type.lower()`.  Every generator resolves an absent seed from
ambient entropy (`default_rng(None)` / `random.randint`), modelled by the
explicit `entropy` argument of the call. -/
def generate_noise (rand : Nat → Nat → ℝ) (pTab : Nat → Nat → Nat)
    (entropy : Nat) (config : NoiseConfig) :
    Except NoiseError (Nat → Nat → ℝ) :=
  let nt := pyLower config.noise_type
  if nt = "white" then
    .ok (generate_white_noise rand config.width config.height
      (resolveSeed entropy config.seed))
  else if nt = "perlin" then
    perlin_noise pTab (resolveSeed entropy config.seed)
      config.width config.height config.scale
  else if nt = "fractal" ∨ nt = "fbm" ∨ nt = "fractal_perlin" ∨ nt = "fbm_perlin" then
    generate_fractal_noise_perlin pTab config.width config.height
      config.octaves config.persistence config.lacunarity config.scale
      (resolveSeed entropy config.seed)
  else if nt = "worley" ∨ nt = "cellular" then
    generate_worley_noise rand config.width config.height
      config.num_points (resolveSeed entropy config.seed) config.worley_metric
  else .error .unknownNoiseType

end

end NoiseMap

noncomputable section

/-- A concrete white-noise configuration (the spec's concrete scenario:
64×64 white noise with seed 7), used to instantiate the theorems below. -/
def cfgWhite : NoiseMap.NoiseConfig :=
  ⟨64, 64, "white", some 7, 32, 4, 1 / 2, 2, 32, "euclidean"⟩

end

/-! Helper lemmas about the embedded primitives. -/

theorem pyTrunc_intCast (z : ℤ) : pyTrunc (z : ℚ) = z := by
  unfold pyTrunc
  split <;> simp

theorem pyTrunc_small (q : ℚ) (h1 : -1 < q) (h2 : q < 1) : pyTrunc q = 0 := by
  unfold pyTrunc
  split
  · exact Int.floor_eq_zero_iff.2 ⟨by assumption, h2⟩
  · rename_i h
    push_neg at h
    exact Int.ceil_eq_zero_iff.2 ⟨h1, le_of_lt h⟩

namespace TextureCore

theorem lerp_color_zero (c1 c2 : Color) : lerp_color c1 c2 0 = c1 := by
  unfold lerp_color lerp
  simp [pyTrunc_intCast]

theorem lerp_color_one (c1 c2 : Color) : lerp_color c1 c2 1 = c2 := by
  unfold lerp_color lerp
  have h : ∀ a b : ℤ, (a : ℚ) + ((b : ℚ) - (a : ℚ)) * 1 = (b : ℚ) := by
    intro a b
    ring
  rw [h, h, h]
  simp [pyTrunc_intCast]

theorem edges_unfold (H W : Nat) (mask : Nat → Nat → Bool) (i j : Nat) :
    edges H W mask i j =
      (mask i j && !(rolled H W mask 1 0 i j) && !(rolled H W mask (-1) 0 i j)
        && !(rolled H W mask 0 1 i j) && !(rolled H W mask 0 (-1) i j)) := rfl

theorem pred_emod_toNat (i H : Nat) (hH : 0 < H) :
    (((i : ℤ) - 1) % (H : ℤ)).toNat = (i + H - 1) % H := by
  have h1 : ((i : ℤ) - 1) % (H : ℤ) = ((i : ℤ) + (H : ℤ) - 1) % (H : ℤ) := by
    conv_rhs =>
      rw [show (i : ℤ) + (H : ℤ) - 1 = (i : ℤ) - 1 + (H : ℤ) * 1 by ring,
        Int.add_mul_emod_self_left]
  have h2 : ((i : ℤ) + (H : ℤ) - 1) = ((i + H - 1 : Nat) : ℤ) := by
    push_cast [Nat.cast_sub (by omega : 1 ≤ i + H)]
    ring
  rw [h1, h2, ← Int.natCast_mod]
  exact Int.toNat_natCast _

theorem succ_emod_toNat (i H : Nat) :
    (((i : ℤ) + 1) % (H : ℤ)).toNat = (i + 1) % H := by
  have h2 : ((i : ℤ) + 1) = ((i + 1 : Nat) : ℤ) := by
    push_cast
    ring
  rw [h2, ← Int.natCast_mod]
  exact Int.toNat_natCast _

theorem self_emod_toNat (j W : Nat) (hj : j < W) :
    (((j : ℤ) - 0) % (W : ℤ)).toNat = j := by
  rw [show (j : ℤ) - 0 = (j : ℤ) by ring, ← Int.natCast_mod]
  simp [Nat.mod_eq_of_lt hj]

/-- Closed form of the outline stage at an in-bounds pixel: the pixel is
recoloured exactly when it is in the mask and all four toroidally wrapped
4-neighbours are outside the mask. -/
theorem outline_pix (H W : Nat) (img : Nat → Nat → Color) (mask : Nat → Nat → Bool)
    (i j : Nat) (hi : i < H) (hj : j < W) :
    outline H W img mask i j =
      if (mask i j && !mask ((i + H - 1) % H) j && !mask ((i + 1) % H) j
          && !mask i ((j + W - 1) % W) && !mask i ((j + 1) % W)) = true
      then ((20 : ℤ), (20 : ℤ), (20 : ℤ)) else img i j := by
  have hcond : edges H W mask i j =
      (mask i j && !mask ((i + H - 1) % H) j && !mask ((i + 1) % H) j
        && !mask i ((j + W - 1) % W) && !mask i ((j + 1) % W)) := by
    rw [edges_unfold]
    unfold rolled
    rw [show ((i : ℤ) - -1) = (i : ℤ) + 1 by ring,
      show ((j : ℤ) - -1) = (j : ℤ) + 1 by ring,
      pred_emod_toNat i H (by omega), succ_emod_toNat i H, self_emod_toNat j W hj,
      pred_emod_toNat j W (by omega), succ_emod_toNat j W, self_emod_toNat i H hi]
  unfold outline
  rw [hcond]

end TextureCore

namespace NoiseMap

theorem clamp01_mem (x : ℝ) : 0 ≤ clamp01 x ∧ clamp01 x ≤ 1 := by
  unfold clamp01
  constructor
  · exact le_min (le_max_right x 0) zero_le_one
  · exact min_le_right _ _

theorem fade_mem (t : ℝ) (h0 : 0 ≤ t) (h1 : t ≤ 1) : 0 ≤ fade t ∧ fade t ≤ 1 := by
  constructor
  · have h : fade t = t ^ 3 * (6 * t ^ 2 - 15 * t + 10) := by
      unfold fade
      ring
    rw [h]
    have h2 : 0 ≤ 6 * t ^ 2 - 15 * t + 10 := by nlinarith [sq_nonneg (t - 5 / 4)]
    exact mul_nonneg (pow_nonneg h0 3) h2
  · have h : 1 - fade t = (1 - t) ^ 3 * (6 * t ^ 2 + 3 * t + 1) := by
      unfold fade
      ring
    have h2 : 0 ≤ (1 - t) ^ 3 * (6 * t ^ 2 + 3 * t + 1) :=
      mul_nonneg (pow_nonneg (by linarith) 3) (by nlinarith [sq_nonneg t])
    linarith

/-- The weight `(1-u)·t + u·(1-t)` with `u = fade t` never exceeds one half:
the positive-combination bound behind the `value ∈ [-1, 1]` range of the
Perlin interpolation. -/
theorem mix_le_half (t : ℝ) (h0 : 0 ≤ t) (h1 : t ≤ 1) :
    (1 - fade t) * t + fade t * (1 - t) ≤ 1 / 2 := by
  have key : 1 / 2 - ((1 - fade t) * t + fade t * (1 - t))
      = (t - 1 / 2) ^ 2 * (12 * (t * (1 - t)) ^ 2 + 4 * (t * (1 - t)) + 2) := by
    unfold fade
    ring
  nlinarith [sq_nonneg (t - 1 / 2), mul_nonneg h0 (by linarith : (0 : ℝ) ≤ 1 - t),
    sq_nonneg (t * (1 - t)), mul_nonneg (sq_nonneg (t - 1 / 2)) (sq_nonneg (t * (1 - t)))]

theorem lerp_abs_le {a b t A B : ℝ} (ht0 : 0 ≤ t) (ht1 : t ≤ 1)
    (ha : |a| ≤ A) (hb : |b| ≤ B) : |lerp a b t| ≤ (1 - t) * A + t * B := by
  have h : lerp a b t = (1 - t) * a + t * b := by
    unfold lerp
    ring
  rw [h]
  calc |(1 - t) * a + t * b| ≤ |(1 - t) * a| + |t * b| := abs_add _ _
    _ = (1 - t) * |a| + t * |b| := by
        rw [abs_mul, abs_mul, abs_of_nonneg (by linarith : (0 : ℝ) ≤ 1 - t),
          abs_of_nonneg ht0]
    _ ≤ (1 - t) * A + t * B := by
        have := abs_nonneg a
        have := abs_nonneg b
        nlinarith

theorem dot_abs {gx gy a b : ℝ} (hgx : |gx| ≤ 1) (hgy : |gy| ≤ 1) :
    |gx * a + gy * b| ≤ |a| + |b| := by
  calc |gx * a + gy * b| ≤ |gx * a| + |gy * b| := abs_add _ _
    _ = |gx| * |a| + |gy| * |b| := by rw [abs_mul, abs_mul]
    _ ≤ 1 * |a| + 1 * |b| := by
        have := abs_nonneg a
        have := abs_nonneg b
        nlinarith
    _ = |a| + |b| := by ring

theorem gradAt_bound (n : Nat) : |(gradAt n).1| ≤ 1 ∧ |(gradAt n).2| ≤ 1 := by
  unfold gradAt
  rcases h : n % 8 with _ | _ | _ | _ | _ | _ | _ | m <;>
    constructor <;> simp [abs_le]

/-- The bilinear fade blend of the four corner dot products lies in `[-1, 1]`
whenever every gradient component lies in `[-1, 1]` (true of all eight
entries of `_GRADIENTS_2D`) and the cell offsets lie in `[0, 1)`. -/
theorem perlinDots_abs (gaa gba gab gbb : ℝ × ℝ)
    (h1 : |gaa.1| ≤ 1) (h2 : |gaa.2| ≤ 1) (h3 : |gba.1| ≤ 1) (h4 : |gba.2| ≤ 1)
    (h5 : |gab.1| ≤ 1) (h6 : |gab.2| ≤ 1) (h7 : |gbb.1| ≤ 1) (h8 : |gbb.2| ≤ 1)
    (xf yf : ℝ) (hx0 : 0 ≤ xf) (hx1 : xf < 1) (hy0 : 0 ≤ yf) (hy1 : yf < 1) :
    |perlinDots gaa gba gab gbb xf yf| ≤ 1 := by
  obtain ⟨hu0, hu1⟩ := fade_mem xf hx0 hx1.le
  obtain ⟨hv0, hv1⟩ := fade_mem yf hy0 hy1.le
  have hxa : |xf| = xf := abs_of_nonneg hx0
  have hya : |yf| = yf := abs_of_nonneg hy0
  have hxb : |xf - 1| = 1 - xf := by
    rw [abs_of_nonpos (by linarith)]
    ring
  have hyb : |yf - 1| = 1 - yf := by
    rw [abs_of_nonpos (by linarith)]
    ring
  have daa : |gaa.1 * xf + gaa.2 * yf| ≤ xf + yf := by
    have := dot_abs h1 h2 (a := xf) (b := yf)
    rwa [hxa, hya] at this
  have dba : |gba.1 * (xf - 1) + gba.2 * yf| ≤ (1 - xf) + yf := by
    have := dot_abs h3 h4 (a := xf - 1) (b := yf)
    rwa [hxb, hya] at this
  have dab : |gab.1 * xf + gab.2 * (yf - 1)| ≤ xf + (1 - yf) := by
    have := dot_abs h5 h6 (a := xf) (b := yf - 1)
    rwa [hxa, hyb] at this
  have dbb : |gbb.1 * (xf - 1) + gbb.2 * (yf - 1)| ≤ (1 - xf) + (1 - yf) := by
    have := dot_abs h7 h8 (a := xf - 1) (b := yf - 1)
    rwa [hxb, hyb] at this
  have hX1 := lerp_abs_le hu0 hu1 daa dba
  have hX2 := lerp_abs_le hu0 hu1 dab dbb
  have hV := lerp_abs_le hv0 hv1 hX1 hX2
  have hmx := mix_le_half xf hx0 hx1.le
  have hmy := mix_le_half yf hy0 hy1.le
  have key : (1 - fade yf) * ((1 - fade xf) * (xf + yf) + fade xf * ((1 - xf) + yf))
      + fade yf * ((1 - fade xf) * (xf + (1 - yf)) + fade xf * ((1 - xf) + (1 - yf)))
      = ((1 - fade xf) * xf + fade xf * (1 - xf))
        + ((1 - fade yf) * yf + fade yf * (1 - yf)) := by
    ring
  unfold perlinDots
  rw [key] at hV
  linarith

/-- Every pixel of the (unclamped) Perlin field lies in `[0, 1]`: the raw
interpolated value lies in `[-1, 1]`, so `value * 0.5 + 0.5` lies in
`[0, 1]`.  This holds for any permutation table and any scale. -/
theorem perlinField_mem (pTab : Nat → Nat → Nat) (seed : Nat) (scale : ℝ)
    (i j : Nat) : 0 ≤ perlinField pTab seed scale i j ∧
      perlinField pTab seed scale i j ≤ 1 := by
  have hx0 : 0 ≤ (j : ℝ) / scale - ⌊(j : ℝ) / scale⌋ := by
    linarith [Int.floor_le ((j : ℝ) / scale)]
  have hx1 : (j : ℝ) / scale - ⌊(j : ℝ) / scale⌋ < 1 := by
    linarith [Int.lt_floor_add_one ((j : ℝ) / scale)]
  have hy0 : 0 ≤ (i : ℝ) / scale - ⌊(i : ℝ) / scale⌋ := by
    linarith [Int.floor_le ((i : ℝ) / scale)]
  have hy1 : (i : ℝ) / scale - ⌊(i : ℝ) / scale⌋ < 1 := by
    linarith [Int.lt_floor_add_one ((i : ℝ) / scale)]
  have hd := perlinDots_abs
    (gradAt (hashAA pTab seed ⌊(j : ℝ) / scale⌋ ⌊(i : ℝ) / scale⌋))
    (gradAt (hashBA pTab seed ⌊(j : ℝ) / scale⌋ ⌊(i : ℝ) / scale⌋))
    (gradAt (hashAB pTab seed ⌊(j : ℝ) / scale⌋ ⌊(i : ℝ) / scale⌋))
    (gradAt (hashBB pTab seed ⌊(j : ℝ) / scale⌋ ⌊(i : ℝ) / scale⌋))
    (gradAt_bound _).1 (gradAt_bound _).2 (gradAt_bound _).1 (gradAt_bound _).2
    (gradAt_bound _).1 (gradAt_bound _).2 (gradAt_bound _).1 (gradAt_bound _).2
    _ _ hx0 hx1 hy0 hy1
  rw [abs_le] at hd
  unfold perlinField
  constructor <;> [nlinarith [hd.1]; nlinarith [hd.2]]

end NoiseMap

/-! Claim theorems. -/

/-- C1: for every seed `s` and every parameter set, `generate_noise` with
`seed = s` is a function of the configuration alone — the ambient entropy
(which models everything that can differ between two runs) does not influence
the result, so two calls with identical seed and parameters yield identical
fields. -/
theorem C1_generate_noise_deterministic (rand : Nat → Nat → ℝ)
    (pTab : Nat → Nat → Nat) (e1 e2 : Nat) (cfg : NoiseMap.NoiseConfig)
    (s : Nat) (hs : cfg.seed = some s) :
    NoiseMap.generate_noise rand pTab e1 cfg
      = NoiseMap.generate_noise rand pTab e2 cfg := by
  simp only [NoiseMap.generate_noise, hs, resolveSeed]

/-- Witness for C1 at the spec's concrete scenario: 64×64 white noise with
seed 7, under two different ambient entropies. -/
theorem C1_generate_noise_deterministic_witness :
    NoiseMap.generate_noise (fun _ _ => (0 : ℝ)) (fun _ i => i % 256) 0 cfgWhite
      = NoiseMap.generate_noise (fun _ _ => (0 : ℝ)) (fun _ i => i % 256) 1 cfgWhite :=
  C1_generate_noise_deterministic (fun _ _ => (0 : ℝ)) (fun _ i => i % 256)
    0 1 cfgWhite 7 rfl

/-- C5: whenever the accumulated `max_amplitude` is exactly zero, both fBm
compositors return the unnormalized accumulated field and never divide:
texture_core.fractal_noise returns the raw total, and
noise_map_generator.generate_fractal_noise_perlin returns the clamped total
(its clamp01 sits outside the conditional).  With `octaves = 0` the
accumulated total is the all-zero field. -/
theorem C5_fbm_zero_max_amplitude (randQ : Nat → Nat → ℚ) (randBase : Nat → Nat)
    (pTab : Nat → Nat → Nat) (w h wR hR : Nat) (oct : Nat) (pQ : ℚ)
    (entropy : Nat) (seedT : Option Nat) (octN : ℤ) (pR lacR bsR : ℝ)
    (seedN : Nat) (totalR : Nat → Nat → ℝ)
    (hq : TextureCore.maxAmplitude pQ oct = 0)
    (hr : NoiseMap.fbmAcc pTab seedN pR lacR bsR octN.toNat = .ok (totalR, 0)) :
    TextureCore.fractal_noise randQ randBase w h oct pQ entropy seedT
      = TextureCore.fbmTotal randQ w (randBase (resolveSeed entropy seedT)) pQ oct ∧
    NoiseMap.generate_fractal_noise_perlin pTab wR hR octN pR lacR bsR seedN
      = .ok (fun y x => NoiseMap.clamp01 (totalR y x)) := by
  constructor
  · simp only [TextureCore.fractal_noise, hq]
    norm_num
  · simp only [NoiseMap.generate_fractal_noise_perlin, hr]
    norm_num

/-- Witness for C5 at `octaves = 0` (both compositors return the all-zero
field, undivided). -/
theorem C5_fbm_zero_max_amplitude_witness :
    TextureCore.fractal_noise (fun _ _ => 0) (fun _ => 0) 16 16 0 (1 / 2) 0 (some 42)
      = TextureCore.fbmTotal (fun _ _ => 0) 16 ((fun _ => (0 : Nat)) (resolveSeed 0 (some 42))) (1 / 2) 0 ∧
    NoiseMap.generate_fractal_noise_perlin (fun _ i => i % 256) 16 16 0 (1 / 2) 2 32 42
      = .ok (fun y x => NoiseMap.clamp01 ((fun _ _ => (0 : ℝ)) y x)) :=
  C5_fbm_zero_max_amplitude (fun _ _ => 0) (fun _ => 0) (fun _ i => i % 256)
    16 16 16 16 0 (1 / 2) 0 (some 42) 0 (1 / 2) 2 32 42 (fun _ _ => (0 : ℝ))
    rfl rfl

/-- C9: Worley/cellular generation with a point count below one fails
synchronously for every width, height and seed and both valid metrics: a
negative count raises numpy's negative-dimensions ValueError at
`rng.random((num_points, 2))`, a zero count raises numpy's zero-size
reduction ValueError at `dist.min(axis=-1)` (the spec's `InvalidParameter`
class), and no field is ever returned. -/
theorem C9_worley_point_count_error (rand : Nat → Nat → ℝ) (w h : Nat)
    (np : ℤ) (seed : Nat) (metric : String)
    (hm : metric = "euclidean" ∨ metric = "manhattan") (hnp : np < 1) :
    (NoiseMap.generate_worley_noise rand w h np seed metric
        = .error .negativeDimensions ∨
      NoiseMap.generate_worley_noise rand w h np seed metric
        = .error .zeroSizeReduction) ∧
    ∀ f, NoiseMap.generate_worley_noise rand w h np seed metric ≠ .ok f := by
  have hmetric : ¬ (metric ≠ "euclidean" ∧ metric ≠ "manhattan") := by
    rcases hm with hm | hm <;> simp [hm]
  have hbody : NoiseMap.generate_worley_noise rand w h np seed metric
      = .error .negativeDimensions ∨
      NoiseMap.generate_worley_noise rand w h np seed metric
      = .error .zeroSizeReduction := by
    unfold NoiseMap.generate_worley_noise
    rw [if_neg hmetric]
    rcases lt_or_ge np 0 with hneg | hge
    · left
      rw [if_pos hneg]
    · right
      have hzero : np = 0 := by omega
      rw [if_neg (by omega), if_pos hzero]
  refine ⟨hbody, fun f hf => ?_⟩
  rcases hbody with hb | hb <;> rw [hb] at hf <;> exact Except.noConfusion hf

/-- Witness for C9: point count 0, metric euclidean, 4×4, seed 0. -/
theorem C9_worley_point_count_error_witness :
    (NoiseMap.generate_worley_noise (fun _ _ => (0 : ℝ)) 4 4 0 0 "euclidean"
        = .error .negativeDimensions ∨
      NoiseMap.generate_worley_noise (fun _ _ => (0 : ℝ)) 4 4 0 0 "euclidean"
        = .error .zeroSizeReduction) ∧
    ∀ f, NoiseMap.generate_worley_noise (fun _ _ => (0 : ℝ)) 4 4 0 0 "euclidean"
      ≠ .ok f :=
  C9_worley_point_count_error (fun _ _ => (0 : ℝ)) 4 4 0 0 "euclidean"
    (Or.inl rfl) (by norm_num)

/-- C3 counterexample: with a single feature point at the origin and the
manhattan metric, pixel (1,1) of a 2×2 field has nearest distance 1; the
code divides it by √2 (giving 1/√2) instead of the claimed per-metric
maximum 2 (which would give 1/2), so the code's output differs from the
claim's output at this concrete input. -/
theorem C3_worley_manhattan_counterexample :
    (NoiseMap.generate_worley_noise (fun _ _ => (0 : ℝ)) 2 2 1 0 "manhattan").map
        (fun f => f 1 1)
      ≠ (Except.ok (NoiseMap.specWorleyField (fun _ _ => (0 : ℝ)) 2 2 1 0 "manhattan" 1 1)
          : Except NoiseMap.NoiseError ℝ) := by
  have hs2 : (0 : ℝ) < Real.sqrt 2 := Real.sqrt_pos.2 (by norm_num)
  have hs1 : (1 : ℝ) ≤ Real.sqrt 2 := by
    rw [show (1 : ℝ) = Real.sqrt 1 by simp]
    exact Real.sqrt_le_sqrt (by norm_num)
  have hd : NoiseMap.nearestDist "manhattan" 2 2
      (NoiseMap.worleyPoints (fun _ _ => (0 : ℝ)) 0 (1 : ℤ).toNat) 1 1 = 1 := by
    have hrange : List.range (1 : ℤ).toNat = [0] := rfl
    simp only [NoiseMap.nearestDist, NoiseMap.worleyPoints, hrange,
      List.map_cons, List.map_nil, NoiseMap.listMin, NoiseMap.distOf,
      List.foldl_nil, if_pos rfl]
    push_cast
    rw [sub_zero, show |(1 : ℝ) / 2| = 1 / 2 from abs_of_nonneg (by norm_num)]
    norm_num
  have hcode : (NoiseMap.generate_worley_noise (fun _ _ => (0 : ℝ)) 2 2 1 0 "manhattan").map
      (fun f => f 1 1) = .ok (NoiseMap.clamp01 (1 / Real.sqrt 2)) := by
    unfold NoiseMap.generate_worley_noise
    rw [if_neg (by simp), if_neg (by norm_num), if_neg (by norm_num)]
    simp only [Except.map]
    rw [hd]
  have hspec : NoiseMap.specWorleyField (fun _ _ => (0 : ℝ)) 2 2 1 0 "manhattan" 1 1
      = NoiseMap.clamp01 (1 / 2) := by
    unfold NoiseMap.specWorleyField NoiseMap.specMetricDivisor
    rw [if_pos rfl, hd]
  rw [hcode, hspec]
  intro h
  have hv : NoiseMap.clamp01 (1 / Real.sqrt 2) = NoiseMap.clamp01 (1 / 2) :=
    Except.ok.inj h
  have e1 : NoiseMap.clamp01 (1 / Real.sqrt 2) = 1 / Real.sqrt 2 := by
    unfold NoiseMap.clamp01
    rw [max_eq_left (by positivity), min_eq_left (by
      rw [div_le_one hs2]
      exact hs1)]
  have e2 : NoiseMap.clamp01 ((1 : ℝ) / 2) = 1 / 2 := by
    unfold NoiseMap.clamp01
    rw [max_eq_left (by norm_num), min_eq_left (by norm_num)]
  rw [e1, e2] at hv
  have hsqrt : Real.sqrt 2 = 2 := by
    have hne : Real.sqrt 2 ≠ 0 := ne_of_gt hs2
    rw [div_eq_div_iff hne (by norm_num)] at hv
    linarith
  have h2 : Real.sqrt 2 ^ 2 = 2 := Real.sq_sqrt (by norm_num)
  rw [hsqrt] at h2
  norm_num at h2

/-- C3 amended: the Worley generator normalizes each pixel's nearest-feature
distance by √2 for BOTH metrics (the per-metric divisor of the claim exists
only for euclidean, where the spec's divisor coincides with √2); the output
still lies in [0,1] for both metrics because of the final clamp. -/
theorem C3_worley_normalization_amended (rand : Nat → Nat → ℝ) (w h : Nat)
    (np : ℤ) (seed : Nat) (metric : String) (f : Nat → Nat → ℝ)
    (hok : NoiseMap.generate_worley_noise rand w h np seed metric = .ok f)
    (i j : Nat) :
    f i j = NoiseMap.clamp01 (NoiseMap.nearestDist metric w h
        (NoiseMap.worleyPoints rand seed np.toNat) i j / Real.sqrt 2) ∧
    0 ≤ f i j ∧ f i j ≤ 1 ∧
    (metric = "euclidean" → f i j = NoiseMap.specWorleyField rand w h np seed metric i j) := by
  unfold NoiseMap.generate_worley_noise at hok
  split at hok
  · exact absurd hok (by simp)
  · split at hok
    · exact absurd hok (by simp)
    · split at hok
      · exact absurd hok (by simp)
      · have hf := Except.ok.inj hok
        subst hf
        refine ⟨rfl, (NoiseMap.clamp01_mem _).1, (NoiseMap.clamp01_mem _).2, ?_⟩
        intro hm
        unfold NoiseMap.specWorleyField NoiseMap.specMetricDivisor
        rw [hm, if_neg (by decide)]

/-- Witness for C3's amended theorem: euclidean metric, one point, 2×2. -/
theorem C3_worley_normalization_amended_witness :
    (fun i j => NoiseMap.clamp01 (NoiseMap.nearestDist "euclidean" 2 2
        (NoiseMap.worleyPoints (fun _ _ => (0 : ℝ)) 0 (1 : ℤ).toNat) i j / Real.sqrt 2)) 0 0
      = NoiseMap.clamp01 (NoiseMap.nearestDist "euclidean" 2 2
        (NoiseMap.worleyPoints (fun _ _ => (0 : ℝ)) 0 (1 : ℤ).toNat) 0 0 / Real.sqrt 2) ∧
    0 ≤ (fun i j => NoiseMap.clamp01 (NoiseMap.nearestDist "euclidean" 2 2
        (NoiseMap.worleyPoints (fun _ _ => (0 : ℝ)) 0 (1 : ℤ).toNat) i j / Real.sqrt 2)) 0 0 ∧
    (fun i j => NoiseMap.clamp01 (NoiseMap.nearestDist "euclidean" 2 2
        (NoiseMap.worleyPoints (fun _ _ => (0 : ℝ)) 0 (1 : ℤ).toNat) i j / Real.sqrt 2)) 0 0 ≤ 1 ∧
    ("euclidean" = "euclidean" → (fun i j => NoiseMap.clamp01 (NoiseMap.nearestDist "euclidean" 2 2
        (NoiseMap.worleyPoints (fun _ _ => (0 : ℝ)) 0 (1 : ℤ).toNat) i j / Real.sqrt 2)) 0 0
      = NoiseMap.specWorleyField (fun _ _ => (0 : ℝ)) 2 2 1 0 "euclidean" 0 0) :=
  C3_worley_normalization_amended (fun _ _ => (0 : ℝ)) 2 2 1 0 "euclidean" _ rfl 0 0

/-- C2: for every supported noise type and every parameter set that returns a
field, every value of the field returned by generate_noise lies in [0,1]
(given the numpy contract that uniform draws lie in [0,1)): white noise is a
raw uniform draw, the unclamped Perlin remap `value*0.5+0.5` stays inside
[0,1] because the interpolated value stays inside [-1,1], and the fractal and
Worley branches clamp. -/
theorem C2_generate_noise_range (rand : Nat → Nat → ℝ) (pTab : Nat → Nat → Nat)
    (entropy : Nat) (hrand : ∀ s i, 0 ≤ rand s i ∧ rand s i < 1)
    (cfg : NoiseMap.NoiseConfig) (f : Nat → Nat → ℝ)
    (hok : NoiseMap.generate_noise rand pTab entropy cfg = .ok f)
    (i j : Nat) : 0 ≤ f i j ∧ f i j ≤ 1 := by
  simp only [NoiseMap.generate_noise] at hok
  split at hok
  · -- white
    rw [Except.ok.injEq] at hok
    subst hok
    exact ⟨(hrand _ _).1, (hrand _ _).2.le⟩
  · split at hok
    · -- perlin
      unfold NoiseMap.perlin_noise at hok
      split at hok
      · exact absurd hok (by simp)
      · rw [Except.ok.injEq] at hok
        subst hok
        exact NoiseMap.perlinField_mem pTab _ _ i j
    · split at hok
      · -- fractal family
        unfold NoiseMap.generate_fractal_noise_perlin at hok
        split at hok
        · exact absurd hok (by simp)
        · rw [Except.ok.injEq] at hok
          subst hok
          exact ⟨(NoiseMap.clamp01_mem _).1, (NoiseMap.clamp01_mem _).2⟩
      · split at hok
        · -- worley family
          unfold NoiseMap.generate_worley_noise at hok
          split at hok
          · exact absurd hok (by simp)
          · split at hok
            · exact absurd hok (by simp)
            · split at hok
              · exact absurd hok (by simp)
              · rw [Except.ok.injEq] at hok
                subst hok
                exact ⟨(NoiseMap.clamp01_mem _).1, (NoiseMap.clamp01_mem _).2⟩
        · -- unknown type
          exact absurd hok (by simp)

/-- Witness for C2 at the concrete 64×64 white-noise configuration with
seed 7, instantiated with a degenerate uniform source that always draws 0
(any source with draws in [0,1) satisfies the hypothesis). -/
theorem C2_generate_noise_range_witness :
    NoiseMap.generate_noise (fun _ _ => (0 : ℝ)) (fun _ i => i % 256) 0 cfgWhite
      = .ok (fun _ _ => (0 : ℝ)) ∧
    (0 ≤ (fun (_ _ : Nat) => (0 : ℝ)) 0 0 ∧ (fun (_ _ : Nat) => (0 : ℝ)) 0 0 ≤ 1) :=
  ⟨rfl, C2_generate_noise_range (fun _ _ => 0) (fun _ i => i % 256) 0
    (fun _ _ => ⟨le_refl 0, by norm_num⟩) cfgWhite (fun _ _ => 0) rfl 0 0⟩

/-- C4: for every non-empty palette of n colours, the palette mapper sends
value 0.0 exactly to the first colour and value 1.0 exactly to the last
colour, and for a single-colour palette every value in [0,1] yields that
single colour (hence a constant image). -/
theorem C4_apply_palette_endpoints (palette : List TextureCore.Color)
    (h : palette ≠ []) :
    TextureCore.applyPaletteValue palette 0 = palette.getD 0 (0, 0, 0) ∧
    TextureCore.applyPaletteValue palette 1 = palette.getD (palette.length - 1) (0, 0, 0) ∧
    (palette.length = 1 → ∀ v : ℚ, 0 ≤ v → v ≤ 1 →
      TextureCore.applyPaletteValue palette v = palette.getD 0 (0, 0, 0)) := by
  have hn : 1 ≤ palette.length := List.length_pos.2 h
  refine ⟨?_, ?_, ?_⟩
  · -- v = 0
    have hidx : TextureCore.paletteIdx palette 0 = 0 := by
      unfold TextureCore.paletteIdx
      rw [zero_mul]
      exact pyTrunc_small 0 (by norm_num) (by norm_num)
    unfold TextureCore.applyPaletteValue
    rw [hidx]
    rw [show (0 : ℚ) * ((palette.length : ℚ) - 1) - (((0 : ℤ) : ℤ) : ℚ) = 0 by
      push_cast
      ring]
    rw [TextureCore.lerp_color_zero]
    unfold TextureCore.pyGet
    simp
  · -- v = 1
    rcases Nat.lt_or_ge palette.length 2 with h2 | h2
    · -- n = 1
      have hlen : palette.length = 1 := by omega
      have hidx : TextureCore.paletteIdx palette 1 = 0 := by
        unfold TextureCore.paletteIdx
        rw [hlen]
        exact pyTrunc_small _ (by norm_num) (by norm_num)
      unfold TextureCore.applyPaletteValue
      rw [hidx, hlen]
      rw [show (1 : ℚ) * (((1 : ℕ) : ℚ) - 1) - (((0 : ℤ) : ℤ) : ℚ) = 0 by
        push_cast
        ring]
      rw [TextureCore.lerp_color_zero]
      unfold TextureCore.pyGet
      simp
    · -- n ≥ 2
      have hq2 : (2 : ℚ) ≤ (palette.length : ℚ) := by exact_mod_cast h2
      have hidx : TextureCore.paletteIdx palette 1 = (palette.length : ℤ) - 2 := by
        unfold TextureCore.paletteIdx pyTrunc
        rw [if_pos (by nlinarith)]
        rw [Int.floor_eq_iff]
        constructor
        · push_cast
          nlinarith
        · push_cast
          nlinarith
      unfold TextureCore.applyPaletteValue
      rw [hidx]
      rw [show (1 : ℚ) * ((palette.length : ℚ) - 1)
          - ((((palette.length : ℤ) - 2 : ℤ) : ℤ) : ℚ) = 1 by
        push_cast
        ring]
      rw [TextureCore.lerp_color_one]
      rw [show min ((palette.length : ℤ) - 2 + 1) ((palette.length : ℤ) - 1)
          = (palette.length : ℤ) - 1 by omega]
      unfold TextureCore.pyGet
      rw [if_pos (by omega)]
      congr 1
      omega
  · -- n = 1, arbitrary v in [0, 1]
    intro hlen v hv0 hv1
    have hidx : TextureCore.paletteIdx palette v = 0 := by
      unfold TextureCore.paletteIdx
      rw [hlen]
      apply pyTrunc_small <;> push_cast <;> nlinarith
    unfold TextureCore.applyPaletteValue
    rw [hidx, hlen]
    rw [show v * (((1 : ℕ) : ℚ) - 1) - (((0 : ℤ) : ℤ) : ℚ) = 0 by
      push_cast
      ring]
    rw [TextureCore.lerp_color_zero]
    unfold TextureCore.pyGet
    simp

/-- Witness for C4 at the concrete glass palette. -/
theorem C4_apply_palette_endpoints_witness :
    TextureCore.applyPaletteValue
        [((230 : ℤ), (240 : ℤ), (255 : ℤ)), (190, 210, 230), (150, 170, 190)] 0
      = (230, 240, 255) ∧
    TextureCore.applyPaletteValue
        [((230 : ℤ), (240 : ℤ), (255 : ℤ)), (190, 210, 230), (150, 170, 190)] 1
      = (150, 170, 190) := by
  have h := C4_apply_palette_endpoints
    [((230 : ℤ), (240 : ℤ), (255 : ℤ)), (190, 210, 230), (150, 170, 190)]
    (by decide)
  exact ⟨h.1, h.2.1⟩

/-- C7 (code bug, evaluated at the failing input): vertical shading with
strength 0 is NOT a no-op.  The shade factor is exactly 1, but the code then
routes the 0..255-valued channels through to_uint8, whose clamp01 (documented
for [0,1]-valued floats) collapses every channel value above 1 to 1 before
rescaling by 255: the 1×1 image with pixel (2,2,2) comes back as
(255,255,255). -/
theorem C7_vertical_shading_strength_zero_bug :
    TextureCore.vertical_shading 1 (fun _ _ => ((2 : ℤ), (2 : ℤ), (2 : ℤ))) 0 0 0
      = ((255 : ℤ), (255 : ℤ), (255 : ℤ)) ∧
    TextureCore.vertical_shading 1 (fun _ _ => ((2 : ℤ), (2 : ℤ), (2 : ℤ))) 0 0 0
      ≠ ((2 : ℤ), (2 : ℤ), (2 : ℤ)) := by
  have hv : TextureCore.to_uint8 (((2 : ℤ) : ℚ) * (1 - TextureCore.linspace01 1 0 * 0))
      = 255 := by
    unfold TextureCore.to_uint8 TextureCore.clamp01 TextureCore.linspace01 pyTrunc
    norm_num
  have hL : TextureCore.vertical_shading 1 (fun _ _ => ((2 : ℤ), (2 : ℤ), (2 : ℤ))) 0 0 0
      = ((255 : ℤ), (255 : ℤ), (255 : ℤ)) := by
    show (TextureCore.to_uint8 (((2 : ℤ) : ℚ) * (1 - TextureCore.linspace01 1 0 * 0)),
        TextureCore.to_uint8 (((2 : ℤ) : ℚ) * (1 - TextureCore.linspace01 1 0 * 0)),
        TextureCore.to_uint8 (((2 : ℤ) : ℚ) * (1 - TextureCore.linspace01 1 0 * 0)))
      = ((255 : ℤ), (255 : ℤ), (255 : ℤ))
    rw [hv]
  refine ⟨hL, ?_⟩
  rw [hL]
  decide

/-- C8: for every image and every silhouette mask that is true at every
in-bounds pixel, the outline stage recolours nothing: every pixel of
`outline(img, mask)` equals the corresponding pixel of `img`. -/
theorem C8_outline_full_mask_noop (H W : Nat) (img : Nat → Nat → TextureCore.Color)
    (mask : Nat → Nat → Bool) (hmask : ∀ i j, i < H → j < W → mask i j = true)
    (i j : Nat) (hi : i < H) (hj : j < W) :
    TextureCore.outline H W img mask i j = img i j := by
  rw [TextureCore.outline_pix H W img mask i j hi hj, if_neg]
  intro hcond
  simp only [Bool.and_eq_true, Bool.not_eq_true'] at hcond
  have h1 : mask ((i + 1) % H) j = true :=
    hmask _ _ (Nat.mod_lt _ (by omega)) hj
  rw [hcond.1.1.2] at h1
  exact Bool.false_ne_true h1

/-- Witness for C8: a 1×1 all-true mask leaves the single pixel untouched. -/
theorem C8_outline_full_mask_noop_witness :
    TextureCore.outline 1 1 (fun _ _ => ((5 : ℤ), (5 : ℤ), (5 : ℤ)))
      (fun _ _ => true) 0 0 = ((5 : ℤ), (5 : ℤ), (5 : ℤ)) :=
  C8_outline_full_mask_noop 1 1 (fun _ _ => ((5 : ℤ), (5 : ℤ), (5 : ℤ)))
    (fun _ _ => true) (fun _ _ _ _ => rfl) 0 0 (by decide) (by decide)

/-- C10 counterexample: in a 2×2 image whose mask is exactly the first row,
pixel (0,0) lies in the mask and its toroidally wrapped vertical neighbour
(row (0+2-1)%2 = 1) lies outside the mask, yet the outline stage does NOT
recolour it (its horizontal neighbour is still in the mask), contradicting
the claim that one wrapped-out neighbour in some direction suffices. -/
theorem C10_outline_wrap_counterexample :
    (fun i (_ : Nat) => decide (i = 0)) 0 0 = true ∧
    (fun i (_ : Nat) => decide (i = 0)) ((0 + 2 - 1) % 2) 0 = false ∧
    TextureCore.outline 2 2 (fun _ _ => ((100 : ℤ), (100 : ℤ), (100 : ℤ)))
      (fun i (_ : Nat) => decide (i = 0)) 0 0 = (100, 100, 100) ∧
    ((100 : ℤ), (100 : ℤ), (100 : ℤ)) ≠ ((20 : ℤ), (20 : ℤ), (20 : ℤ)) := by
  refine ⟨rfl, rfl, ?_, by decide⟩
  decide

/-- C10 amended: the outline neighbourhood does wrap toroidally via np.roll,
but an in-bounds mask pixel is recoloured to the outline colour exactly when
ALL FOUR wrapped 4-neighbours lie outside the mask (the shifted masks are
conjoined, not disjoined), not whenever a single wrapped neighbour does. -/
theorem C10_outline_isolated_amended (H W : Nat)
    (img : Nat → Nat → TextureCore.Color) (mask : Nat → Nat → Bool)
    (i j : Nat) (hi : i < H) (hj : j < W) :
    TextureCore.outline H W img mask i j =
      if (mask i j && !mask ((i + H - 1) % H) j && !mask ((i + 1) % H) j
          && !mask i ((j + W - 1) % W) && !mask i ((j + 1) % W)) = true
      then ((20 : ℤ), (20 : ℤ), (20 : ℤ)) else img i j :=
  TextureCore.outline_pix H W img mask i j hi hj

/-- Witness for C10's amended theorem at a concrete isolated mask pixel: the
2×2 mask containing only (0,0) has all four wrapped neighbours outside, so
the pixel is recoloured to (20,20,20). -/
theorem C10_outline_isolated_amended_witness :
    TextureCore.outline 2 2 (fun _ _ => ((100 : ℤ), (100 : ℤ), (100 : ℤ)))
      (fun i j => decide (i = 0 ∧ j = 0)) 0 0 =
      if ((fun i j => decide (i = 0 ∧ j = 0)) 0 0
          && !(fun i j => decide (i = 0 ∧ j = 0)) ((0 + 2 - 1) % 2) 0
          && !(fun i j => decide (i = 0 ∧ j = 0)) ((0 + 1) % 2) 0
          && !(fun i j => decide (i = 0 ∧ j = 0)) 0 ((0 + 2 - 1) % 2)
          && !(fun i j => decide (i = 0 ∧ j = 0)) 0 ((0 + 1) % 2)) = true
      then ((20 : ℤ), (20 : ℤ), (20 : ℤ))
      else (fun _ _ => ((100 : ℤ), (100 : ℤ), (100 : ℤ))) 0 0 :=
  C10_outline_isolated_amended 2 2 (fun _ _ => ((100 : ℤ), (100 : ℤ), (100 : ℤ)))
    (fun i j => decide (i = 0 ∧ j = 0)) 0 0 (by decide) (by decide)

/-- Every item type with a silhouette has a valid default palette key. -/
theorem TextureCore.default_palette_valid (t : String)
    (maskf : Nat → Nat → Nat → Bool)
    (ht : TextureCore.SILHOUETTES t = some maskf) :
    ∃ p, TextureCore.PALETTES (TextureCore.default_palette t) = some p := by
  unfold TextureCore.SILHOUETTES at ht
  split_ifs at ht with h1 h2 h3 h4 h5 h6 h7 h8
  · subst h1
    exact ⟨_, rfl⟩
  · subst h2
    exact ⟨_, rfl⟩
  · subst h3
    exact ⟨_, rfl⟩
  · subst h4
    exact ⟨_, rfl⟩
  · subst h5
    exact ⟨_, rfl⟩
  · subst h6
    exact ⟨_, rfl⟩
  · subst h7
    exact ⟨_, rfl⟩
  · subst h8
    exact ⟨_, rfl⟩

/-- C6: for every valid item type, `generate_texture(size=16, frames=3,
seed=42)` returns a 48×16 sheet whose first 16 rows are pixel-identical to
the 16×16 single-frame result of `generate_texture(size=16, frames=1,
seed=42)`: frame 0 derives seed 42+0 = 42, the single-frame seed. -/
theorem C6_animation_first_frame (rand : Nat → Nat → ℚ) (randBase : Nat → Nat)
    (entropy : Nat) (t : String) (maskf : Nat → Nat → Nat → Bool)
    (ht : TextureCore.SILHOUETTES t = some maskf) :
    ∃ sheet single : TextureCore.Image,
      TextureCore.generate_texture rand randBase entropy 16 t 3 none (some 42)
        = .ok sheet ∧
      TextureCore.generate_texture rand randBase entropy 16 t 1 none (some 42)
        = .ok single ∧
      sheet.height = 48 ∧ sheet.width = 16 ∧
      single.height = 16 ∧ single.width = 16 ∧
      ∀ y x, y < 16 → x < 16 → sheet.pix y x = single.pix y x := by
  obtain ⟨p, hp⟩ := TextureCore.default_palette_valid t maskf ht
  refine ⟨⟨16 * (3 : ℤ).toNat, 16, fun y x =>
      TextureCore.framePix rand randBase 16 maskf p entropy
        (TextureCore.seedPlus (some 42) (y / 16)) (y % 16) x⟩,
    ⟨16, 16, TextureCore.framePix rand randBase 16 maskf p entropy (some 42)⟩,
    ?_, ?_, rfl, rfl, rfl, rfl, ?_⟩
  · simp only [TextureCore.generate_texture]
    rw [if_neg (by decide), ht]
    simp only [Option.getD_none]
    rw [hp]
    exact rfl
  · simp only [TextureCore.generate_texture]
    rw [if_pos (by decide)]
    simp only [TextureCore.generate_frame]
    rw [ht]
    simp only [Option.getD_none]
    rw [hp]
  · intro y x hy hx
    simp only [Nat.div_eq_of_lt hy, Nat.mod_eq_of_lt hy]
    exact rfl

/-- Witness for C6 at the bottle item type. -/
theorem C6_animation_first_frame_witness :
    ∃ sheet single : TextureCore.Image,
      TextureCore.generate_texture (fun _ _ => 0) (fun _ => 0) 0 16 "bottle" 3
          none (some 42) = .ok sheet ∧
      TextureCore.generate_texture (fun _ _ => 0) (fun _ => 0) 0 16 "bottle" 1
          none (some 42) = .ok single ∧
      sheet.height = 48 ∧ sheet.width = 16 ∧
      single.height = 16 ∧ single.width = 16 ∧
      ∀ y x, y < 16 → x < 16 → sheet.pix y x = single.pix y x :=
  C6_animation_first_frame (fun _ _ => 0) (fun _ => 0) 0 "bottle"
    TextureCore.sil_bottle rfl
